import Mathlib

/-!
Verification of the news bot (`src/bot.py`): a shallow embedding of its
deduplication ledger, source adapters, enrichment function, dispatch jobs
and startup path, with theorems settling the specification claims.

Conventions of the embedding:
* The sqlite table `sent_items (id TEXT PRIMARY KEY, source TEXT, ...)` is a
  list of `(id, source)` pairs with at most one entry per id; the
  `created_at` column has a database-side default and plays no role in the
  program logic, so it is omitted.
* Python substring tests (`k in s`) become `strHas s k`; `str.lower()`,
  `str.strip()` and string comparison become the characterwise
  `strLower`, `strStrip` and `strLt` (the core `String` versions are
  avoided only because their well-founded recursions do not evaluate
  inside the kernel).
* Network calls are passed in as explicit data: HTTP responses as values of
  `HttpResult` (a call either raises or returns a status and a parsed body),
  the Telegram `bot.send_message` as an oracle `sendOk : String → Bool`
  (`false` models a raised `TelegramError`), the OpenAI call as an
  `AIOutcome`.  Every `bot.send_message` call is recorded as a `BotAction`;
  the single fixed destination `TARGET_CHAT_ID` is left implicit.
-/

/-! ## String helpers (Python `sub in s`) -/

/-- `listStarts sub s`: the list `s` starts with `sub`. -/
def listStarts : List Char → List Char → Bool
  | [], _ => true
  | _ :: _, [] => false
  | a :: as, b :: bs => a == b && listStarts as bs

/-- `listHasSub sub s`: `sub` occurs contiguously inside `s`. -/
def listHasSub : List Char → List Char → Bool
  | sub, [] => sub.isEmpty
  | sub, c :: rest => listStarts sub (c :: rest) || listHasSub sub rest

/-- Python `sub in s` on strings (contiguous substring test). -/
def strHas (s sub : String) : Bool :=
  listHasSub sub.toList s.toList

/-- Python `str.lower()` (characterwise; the labels and titles involved
are ASCII, where this agrees with Python). -/
def strLower (s : String) : String :=
  String.mk (s.data.map Char.toLower)

/-- Codepoint comparison of characters, as Python compares characters. -/
def charLt (a b : Char) : Bool :=
  a.toNat < b.toNat

/-- Lexicographic order on character lists. -/
def listLt : List Char → List Char → Bool
  | [], [] => false
  | [], _ :: _ => true
  | _ :: _, [] => false
  | a :: as, b :: bs => charLt a b || (a == b && listLt as bs)

/-- Python `a < b` on strings: lexicographic by codepoint. -/
def strLt (a b : String) : Bool :=
  listLt a.data b.data

/-- Python `str.strip()`: drop leading and trailing whitespace. -/
def strStrip (s : String) : String :=
  String.mk
    (((s.data.dropWhile Char.isWhitespace).reverse.dropWhile
        Char.isWhitespace).reverse)

/-! ## Seen-item ledger (`init_db`, `mark_sent`, `was_sent`, bot.py 49-78) -/

/-- `was_sent` (bot.py 72-78): `SELECT 1 FROM sent_items WHERE id=?` —
membership of the id among the recorded rows. -/
def was_sent (db : List (String × String)) (item_id : String) : Bool :=
  db.any fun r => r.1 == item_id

/-- `mark_sent` (bot.py 62-70): `INSERT INTO sent_items(id, source)`;
a duplicate primary key raises `sqlite3.IntegrityError`, which the code
swallows (`except ... pass`), so the insert of an existing id is a no-op. -/
def mark_sent (db : List (String × String)) (item_id source : String) :
    List (String × String) :=
  if was_sent db item_id then db else db ++ [(item_id, source)]

/-! ## Calendar source adapter (`fetch_forex_today`, bot.py 137-173)

The HTML transport and BeautifulSoup parsing are external collaborators:
a row of the calendar table arrives as the list of its cell texts
(`tds[0]` time, `tds[1]` currency, `tds[2]` impact, `tds[3]` event title,
`tds[4]` actual, `tds[5]` forecast).  A transport or parse exception makes
the whole function return `[]` (bot.py 171-173); that case is the empty
row list. -/

/-- The inclusion keyword tuple of bot.py line 157. -/
def impactKeywords : List String :=
  ["med", "m", "yellow", "high", "h", "important", "red"]

/-- A scraped calendar event record as built at bot.py 161-169. -/
structure FFEvent where
  id : String
  time : String
  currency : String
  impact : String
  event : String
  actual : String
  forecast : String
deriving Repr, DecidableEq

/-- One iteration of the row loop of `fetch_forex_today` (bot.py 146-169):
rows with fewer than 6 cells are skipped; the impact label is lowered;
the row is kept when a keyword occurs in it or it is non-empty (Python
truthiness of `impact_l`), unless `"low"` (or `"low-impact"`) occurs in it;
the event id is synthesized as `ff:<date>:<currency>:<event>:<time>`. -/
def ffRowEvent (today : String) (tds : List String) : Option FFEvent :=
  if tds.length < 6 then none
  else if (impactKeywords.any fun k => strHas (strLower (tds.getD 2 "")) k)
      || !(strLower (tds.getD 2 "") == "") then
    if strHas (strLower (tds.getD 2 "")) "low"
        || strHas (strLower (tds.getD 2 "")) "low-impact" then none
    else some
      { id := "ff:" ++ today ++ ":" ++ tds.getD 1 "" ++ ":" ++ tds.getD 3 ""
          ++ ":" ++ tds.getD 0 ""
        time := tds.getD 0 ""
        currency := tds.getD 1 ""
        impact := tds.getD 2 ""
        event := tds.getD 3 ""
        actual := tds.getD 4 ""
        forecast := tds.getD 5 "" }
  else none

/-- `fetch_forex_today` (bot.py 137-173) over already-parsed rows. -/
def fetch_forex_today (today : String) (rows : List (List String)) :
    List FFEvent :=
  rows.filterMap (ffRowEvent today)

/-! ## Social source adapter (`fetch_latest_from_x`, bot.py 83-111) -/

/-- A tweet record as built at bot.py 104-110. -/
structure Tweet where
  id : String
  text : String
  created_at : String
  url : String
deriving Repr, DecidableEq

/-- Outcome of one `requests.get` call: either the call itself raises
(timeout, connection error, malformed JSON body) or it returns a status
code together with the parsed payload the code extracts from the body. -/
inductive HttpResult (α : Type) where
  | exn
  | resp (status : Nat) (body : α)
deriving DecidableEq, Repr

/-- The two upstream calls `fetch_latest_from_x` makes: the user lookup
(payload: `data.id`, absent when missing) and the timeline fetch
(payload: tweets as `(id, text, created_at)` triples). -/
structure XEnv where
  userCall : HttpResult (Option String)
  tweetsCall : HttpResult (List (String × String × String))
deriving DecidableEq, Repr

/-- `fetch_latest_from_x` (bot.py 83-111).  The function body has no
exception handler, so a call that raises propagates (`Except.error`);
a completed call with a non-200 status is logged and yields `[]`;
unset credentials yield `[]` before any call is made.  The `since_id`
parameter only shapes the upstream request, not the control flow, so it
is folded into `XEnv`. -/
def fetch_latest_from_x (username bearer : String) (env : XEnv) :
    Except Unit (List Tweet) :=
  if bearer = "" ∨ username = "" then Except.ok []
  else
    match env.userCall with
    | HttpResult.exn => Except.error ()
    | HttpResult.resp st body =>
      if st ≠ 200 then Except.ok []
      else
        match body with
        | none => Except.ok []
        | some _uid =>
          match env.tweetsCall with
          | HttpResult.exn => Except.error ()
          | HttpResult.resp st2 tws =>
            if st2 ≠ 200 then Except.ok []
            else Except.ok (tws.map fun w =>
              { id := w.1, text := w.2.1, created_at := w.2.2,
                url := "https://x.com/" ++ username ++ "/status/" ++ w.1 })

/-! ## Social dispatch pipeline (`x_poll_job`, bot.py 113-134) -/

/-- The mutable state the poll job touches: the ledger and the global
`last_seen_x_id` cursor (bot.py 81). -/
structure XState where
  db : List (String × String)
  last_seen_x_id : Option String
deriving Repr, DecidableEq

/-- A `bot.send_message` invocation (always to `TARGET_CHAT_ID`):
plain text, or HTML (`parse_mode=ParseMode.HTML`). -/
inductive BotAction where
  | send (text : String)
  | sendHTML (text : String)
deriving Repr, DecidableEq

/-- The message built at bot.py 125. -/
def x_message (username : String) (t : Tweet) : String :=
  "📰 Nowy wpis z X (" ++ username ++ "):\n\n" ++ t.text ++ "\n\n" ++ t.url

/-- Stable insertion into a list sorted by `key` (equal keys keep the
existing element first). -/
def insortBy (key : Tweet → String) (a : Tweet) : List Tweet → List Tweet
  | [] => [a]
  | b :: bs => if strLt (key b) (key a) then b :: insortBy key a bs else a :: b :: bs

/-- Python `sorted(xs, key=...)`: a stable sort by key (bot.py 117). -/
def stableSortBy (key : Tweet → String) : List Tweet → List Tweet
  | [] => []
  | a :: as => insortBy key a (stableSortBy key as)

/-- The per-tweet loop of `x_poll_job` (bot.py 118-132): skip ids already
in the ledger; otherwise call `bot.send_message` (recorded as an
`BotAction.send` whatever its outcome); on success `mark_sent` and advance
the cursor, on `TelegramError` log and continue with state unchanged. -/
def x_process (u : String) (sendOk : String → Bool) :
    XState → List Tweet → XState × List BotAction
  | st, [] => (st, [])
  | st, t :: rest =>
    if was_sent st.db ("x:" ++ t.id) then x_process u sendOk st rest
    else
      if sendOk (x_message u t) then
        let r := x_process u sendOk
          { db := mark_sent st.db ("x:" ++ t.id) "x",
            last_seen_x_id := some t.id } rest
        (r.fst, BotAction.send (x_message u t) :: r.snd)
      else
        let r := x_process u sendOk st rest
        (r.fst, BotAction.send (x_message u t) :: r.snd)

/-- `x_poll_job` (bot.py 113-134) applied to an already fetched tweet
list: sort by `created_at` (bot.py 117), then run the dispatch loop. -/
def x_poll_job (u : String) (sendOk : String → Bool) (st : XState)
    (tweets : List Tweet) : XState × List BotAction :=
  x_process u sendOk st (stableSortBy (fun t => t.created_at) tweets)

/-! ## Enrichment function (`analyze_event_with_ai`, bot.py 176-220) -/

/-- Outcome of the OpenAI chat-completion call at bot.py 195-205:
either the produced message content, or a raised exception (also used
for the unreachable call when the key is unset).  `configured` below
stands for `OPENAI_API_KEY and OPENAI_AVAILABLE`. -/
inductive AIOutcome where
  | ok (text : String)
  | err
deriving Repr, DecidableEq

/-- The deterministic template fallback of `analyze_event_with_ai`
(bot.py 209-220): keyword rules on the lowered event title select the
direction sentence, defaulting to the generic one. -/
def fallback_comment (e : FFEvent) : String :=
  let cur := e.currency
  let ev := strLower e.event
  let direction :=
    if strHas ev "cpi" || strHas ev "inflation" then
      "możliwe umocnienie " ++ cur
        ++ " jeśli dane będą powyżej oczekiwań, osłabienie jeśli poniżej."
    else if strHas ev "unemployment" || strHas ev "job" || strHas ev "nfp" then
      "duży wpływ na rynek pracy i " ++ cur ++ ", zwiększona zmienność."
    else if strHas ev "gdp" then
      "długoterminowy wpływ na postrzeganie kondycji gospodarki i "
        ++ cur ++ "."
    else "możliwe większe wahania"
  e.event ++ " (" ++ e.currency ++ ") — " ++ direction
    ++ " Krótkoterminowo spodziewana zmienność: wysoka."

/-- `analyze_event_with_ai` (bot.py 176-220): when OpenAI is configured
and the call succeeds, return its stripped content; when it is not
configured, or the call raises (logged `OpenAI error`), fall through to
the template fallback. -/
def analyze_event_with_ai (configured : Bool) (ai : AIOutcome)
    (e : FFEvent) : String :=
  if configured then
    match ai with
    | AIOutcome.ok t => strStrip t
    | AIOutcome.err => fallback_comment e
  else fallback_comment e

/-! ## Calendar dispatch pipeline (`forex_daily_job`, bot.py 223-243) -/

/-- The header pushed as `lines[0]` at bot.py 229. -/
def forex_header : String :=
  "📊 <b>ForexFactory — dzisiejsze wydarzenia (żółte/czerwone):</b>\n"

/-- The message sent when the fetch returns no events (bot.py 227). -/
def forex_empty_msg : String :=
  "📅 ForexFactory: brak wydarzeń medium/high lub błąd pobierania."

/-- The message the outer exception handler sends (bot.py 241). -/
def forex_error_msg : String :=
  "Błąd podczas pobierania/analizy ForexFactory."

/-- One per-event block appended to `lines` at bot.py 234 (each event's
`forecast`/`actual` key is always present, so the `.get` defaults never
apply). -/
def forex_line (configured : Bool) (ai : FFEvent → AIOutcome)
    (e : FFEvent) : String :=
  "<b>" ++ e.time ++ " | " ++ e.currency ++ " | " ++ e.impact ++ "</b>\n"
    ++ e.event ++ "\nPrognoza: " ++ e.forecast ++ " | Wynik: " ++ e.actual
    ++ "\n\n" ++ analyze_event_with_ai configured (ai e) e ++ "\n---\n"

/-- The per-event loop of `forex_daily_job` (bot.py 230-235): skip events
already in the ledger; otherwise append the block for the event and call
`mark_sent` — note that this happens while composing the message, before
anything is sent.  Returns the ledger after the loop and the appended
blocks in order. -/
def forex_loop (configured : Bool) (ai : FFEvent → AIOutcome) :
    List (String × String) → List FFEvent →
    List (String × String) × List String
  | db, [] => (db, [])
  | db, e :: rest =>
    if was_sent db e.id then forex_loop configured ai db rest
    else
      let r := forex_loop configured ai (mark_sent db e.id "forex") rest
      (r.fst, forex_line configured ai e :: r.snd)

/-- `forex_daily_job` (bot.py 223-243) applied to an already fetched event
list.  Empty fetch result: send the fixed notice and return.  Otherwise:
run the loop (which marks every fresh event), join header and blocks with
newlines, and send the single HTML message.  A `TelegramError` from either
send is caught by the outer handler, which then attempts the fixed error
message (its own failure is swallowed); the ledger marks made by the loop
are kept either way. -/
def forex_daily_job (configured : Bool) (ai : FFEvent → AIOutcome)
    (sendOk : String → Bool) (db : List (String × String))
    (events : List FFEvent) : List (String × String) × List BotAction :=
  if events.isEmpty then
    if sendOk forex_empty_msg then (db, [BotAction.send forex_empty_msg])
    else (db, [BotAction.send forex_empty_msg,
               BotAction.send forex_error_msg])
  else
    let r := forex_loop configured ai db events
    let message := String.intercalate "\n" (forex_header :: r.snd)
    if sendOk message then (r.fst, [BotAction.sendHTML message])
    else (r.fst, [BotAction.sendHTML message,
                  BotAction.send forex_error_msg])

/-! ## Startup path (`main` and the `__main__` block, bot.py 246-287) -/

/-- A statement executed by the `if __name__ == "__main__"` block. -/
inductive StartupStep where
  | startFlaskThread
  | runMain
deriving Repr, DecidableEq

/-- The body of the `if __name__ == "__main__"` block (bot.py 271-275):
it starts the Flask keep-alive daemon thread and ends.  No call to
`main()` appears in it — the only `main()` call site in the file is the
line after the `return` statements of the `/status` route handler
(bot.py 287), which is unreachable. -/
def main_guard_steps : List StartupStep :=
  [StartupStep.startFlaskThread]

/-- A job registration made by `main` on the `BackgroundScheduler`. -/
inductive SchedJob where
  | interval (secs : Nat) (firesImmediately : Bool)
  | cron (hour : Nat) (minute : Nat)
deriving Repr, DecidableEq

/-- The `add_job` calls of `main` (bot.py 249-250): `x_poll_job` on an
interval of `POLL_INTERVAL` seconds with `next_run_time=datetime.utcnow()`
(an immediate first firing), and `forex_daily_job` on a daily cron at
`FOREX_DAILY_HOUR`:00. -/
def main_sched_jobs (poll_interval daily_hour : Nat) : List SchedJob :=
  [SchedJob.interval poll_interval true, SchedJob.cron daily_hour 0]

/-! ## Concrete fixtures for the scenario claims -/

/-- The two posts of the spec scenario (`{id:"100", text:"A"}`,
`{id:"101", text:"B"}`), with the url the adapter synthesizes. -/
def t100 : Tweet :=
  { id := "100", text := "A", created_at := "",
    url := "https://x.com/acct/status/100" }

/-- Second post of the spec scenario. -/
def t101 : Tweet :=
  { id := "101", text := "B", created_at := "",
    url := "https://x.com/acct/status/101" }

/-- The calendar event of the spec scenario, with the id
`ff:2024-01-01:USD:CPI:08:30` exactly as `fetch_forex_today` would
synthesize it from its fields. -/
def evCPI : FFEvent :=
  { id := "ff:2024-01-01:USD:CPI:08:30", time := "08:30",
    currency := "USD", impact := "High", event := "CPI",
    actual := "", forecast := "" }

/-- A well-formed high-impact calendar row. -/
def nfpRow : List String := ["08:30", "USD", "High", "NFP", "1", "2"]

/-- The event `fetch_forex_today "2024-01-01" [nfpRow]` produces. -/
def evNFP : FFEvent :=
  { id := "ff:2024-01-01:USD:NFP:08:30", time := "08:30",
    currency := "USD", impact := "High", event := "NFP",
    actual := "1", forecast := "2" }

/-- An upstream environment whose calls all succeed (no tweets). -/
def xEnvOk : XEnv :=
  { userCall := HttpResult.resp 200 (some "1"),
    tweetsCall := HttpResult.resp 200 [] }

/-- An upstream environment whose user lookup completes with HTTP 404. -/
def xEnv404 : XEnv :=
  { userCall := HttpResult.resp 404 none, tweetsCall := HttpResult.exn }

/-- An upstream environment whose user lookup raises (e.g. a timeout). -/
def xEnvRaise : XEnv :=
  { userCall := HttpResult.exn, tweetsCall := HttpResult.exn }

/-! ## Ledger lemmas -/

/-- After `mark_sent db i s`, the id `i` is present. -/
theorem was_sent_mark_self (db : List (String × String)) (i s : String) :
    was_sent (mark_sent db i s) i = true := by
  by_cases h : was_sent db i
  · unfold mark_sent
    rw [if_pos h]
    exact h
  · unfold mark_sent
    rw [if_neg h]
    simp [was_sent, List.any_append]

/-- `mark_sent` never removes an id. -/
theorem was_sent_mark_keeps (db : List (String × String)) (i s j : String)
    (h : was_sent db j = true) : was_sent (mark_sent db i s) j = true := by
  by_cases hi : was_sent db i
  · unfold mark_sent
    rw [if_pos hi]
    exact h
  · unfold mark_sent
    rw [if_neg hi]
    simp only [was_sent, List.any_append] at h ⊢
    simp [h]

/-- The forex loop never removes an id from the ledger. -/
theorem forex_loop_keeps (cfg : Bool) (ai : FFEvent → AIOutcome)
    (j : String) :
    ∀ (evs : List FFEvent) (db : List (String × String)),
    was_sent db j = true →
    was_sent (forex_loop cfg ai db evs).fst j = true := by
  intro evs
  induction evs with
  | nil => intro db h; simpa [forex_loop] using h
  | cons a l ih =>
    intro db h
    by_cases ha : was_sent db a.id
    · simpa [forex_loop, ha] using ih db h
    · simpa [forex_loop, ha] using
        ih (mark_sent db a.id "forex") (was_sent_mark_keeps db a.id "forex" j h)

/-- After the forex loop, every processed event's id is in the ledger —
whether it was already there or was marked while composing the message. -/
theorem forex_loop_mem (cfg : Bool) (ai : FFEvent → AIOutcome) :
    ∀ (evs : List FFEvent) (db : List (String × String)) (e : FFEvent),
    e ∈ evs → was_sent (forex_loop cfg ai db evs).fst e.id = true := by
  intro evs
  induction evs with
  | nil => intro db e he; simp at he
  | cons a l ih =>
    intro db e he
    by_cases ha : was_sent db a.id
    · rcases List.mem_cons.mp he with rfl | hl
      · simpa [forex_loop, ha] using forex_loop_keeps cfg ai e.id l db ha
      · simpa [forex_loop, ha] using ih db e hl
    · rcases List.mem_cons.mp he with rfl | hl
      · simpa [forex_loop, ha] using
          forex_loop_keeps cfg ai e.id l (mark_sent db e.id "forex")
            (was_sent_mark_self db e.id "forex")
      · simpa [forex_loop, ha] using ih (mark_sent db a.id "forex") e hl

/-! ## Claim theorems -/

/-- C6: for any item id and source, calling `mark_sent` twice leaves the
ledger in the same state as calling it once — the duplicate insert is a
silent no-op (the swallowed `IntegrityError`), after which the id is
present — and `was_sent` returns true for an id exactly when a record
with that id is in the ledger. -/
theorem C6_ledger_idempotent (db : List (String × String)) (i s : String) :
    mark_sent (mark_sent db i s) i s = mark_sent db i s
    ∧ was_sent (mark_sent db i s) i = true
    ∧ (was_sent db i = true ↔ ∃ src, (i, src) ∈ db) := by
  refine ⟨?_, was_sent_mark_self db i s, ?_⟩
  · conv_lhs => rw [mark_sent]
    rw [if_pos (was_sent_mark_self db i s)]
  · simp only [was_sent, List.any_eq_true, beq_iff_eq]
    constructor
    · rintro ⟨⟨a, b⟩, hm, rfl⟩
      exact ⟨b, hm⟩
    · rintro ⟨src, hm⟩
      exact ⟨(i, src), hm, rfl⟩

/-- C7: with an empty cursor and an empty ledger, the poll job applied to
the fetch result `[{id:"100", text:"A"}, {id:"101", text:"B"}]` (all
deliveries succeeding) sends both messages in order 100 then 101, records
`x:100` and `x:101` in the ledger, and leaves the cursor at `"101"`. -/
theorem C7_two_posts_scenario :
    x_poll_job "acct" (fun _ => true)
        { db := [], last_seen_x_id := none } [t100, t101]
      = ({ db := [("x:100", "x"), ("x:101", "x")],
           last_seen_x_id := some "101" },
         [BotAction.send (x_message "acct" t100),
          BotAction.send (x_message "acct" t101)]) := rfl

/-- C2: when the single fetched calendar event's id
`ff:2024-01-01:USD:CPI:08:30` is already in the ledger, the daily job
leaves the ledger unchanged (no re-`mark_sent`), sends only the fixed
header (which mentions neither the event title nor its id), and emits no
per-event block for that id. -/
theorem C2_already_sent_skipped :
    forex_daily_job false (fun _ => AIOutcome.err) (fun _ => true)
        [("ff:2024-01-01:USD:CPI:08:30", "forex")] [evCPI]
      = ([("ff:2024-01-01:USD:CPI:08:30", "forex")],
         [BotAction.sendHTML forex_header])
    ∧ strHas forex_header "CPI" = false
    ∧ strHas forex_header "ff:2024-01-01:USD:CPI:08:30" = false :=
  ⟨rfl, by decide, by decide⟩

/-- C10: when `fetch_forex_today` returned no events (also the shape of a
failed fetch), the daily job still sends the fixed
`brak wydarzeń medium/high lub błąd pobierania` notice: it is the first
`bot.send_message` call of the run, the run consists of that call alone
(plus only the error notice if that very send raises), and the ledger is
untouched. -/
theorem C10_empty_events_message (cfg : Bool) (ai : FFEvent → AIOutcome)
    (sendOk : String → Bool) (db : List (String × String)) :
    (forex_daily_job cfg ai sendOk db []).snd.head?
        = some (BotAction.send forex_empty_msg)
    ∧ ((forex_daily_job cfg ai sendOk db []).snd
          = [BotAction.send forex_empty_msg]
        ∨ (forex_daily_job cfg ai sendOk db []).snd
          = [BotAction.send forex_empty_msg,
             BotAction.send forex_error_msg])
    ∧ (forex_daily_job cfg ai sendOk db []).fst = db := by
  cases hs : sendOk forex_empty_msg
  · exact ⟨by simp [forex_daily_job, hs], Or.inr (by simp [forex_daily_job, hs]),
      by simp [forex_daily_job, hs]⟩
  · exact ⟨by simp [forex_daily_job, hs], Or.inl (by simp [forex_daily_job, hs]),
      by simp [forex_daily_job, hs]⟩

/-- C3 (code bug): `main` would schedule the poll job with an immediate
first firing and a default 300-second interval, together with the daily
cron job — but the script startup path never reaches it: the
`if __name__ == "__main__"` block only starts the Flask daemon thread,
and the file's sole `main()` call site sits after the `return` statements
of the `/status` handler (bot.py 287), unreachable.  So no scheduler is
ever started when the program runs as a script. -/
theorem C3_startup_never_runs_main :
    main_guard_steps.contains StartupStep.runMain = false
    ∧ main_sched_jobs 300 8
        = [SchedJob.interval 300 true, SchedJob.cron 8 0] :=
  ⟨by decide, rfl⟩

/-- C4 (code bug): a well-formed calendar row whose impact label is
`yellow` — a label in the code's own inclusion keyword tuple, and the
class of events the daily header advertises (`żółte/czerwone`) — is
dropped by `fetch_forex_today`, because the low-impact exclusion tests
for `"low"` as a substring and `yellow` contains `low`. -/
theorem C4_yellow_row_dropped :
    fetch_forex_today "2024-01-01"
        [["08:30", "USD", "yellow", "CPI", "3.1%", "3.0%"]] = []
    ∧ "yellow" ∈ impactKeywords
    ∧ strHas (strLower "yellow") "low" = true := by
  refine ⟨by decide, by decide, by decide⟩

/-- C1 (counterexample): a calendar run over one fresh event in which
every `bot.send_message` raises (`sendOk` constantly false).  Delivery of
the event's notification fails — the run takes the error path, attempting
the batched message and then the error notice — yet the event's id
`ff:2024-01-01:USD:CPI:08:30` ends up recorded in the ledger, because
`forex_daily_job` calls `mark_sent` while composing the message, before
sending anything.  The claim as stated (recorded only after delivery
succeeds) is therefore false for the calendar source. -/
theorem C1_counterexample :
    was_sent (forex_daily_job false (fun _ => AIOutcome.err)
        (fun _ => false) [] [evCPI]).fst "ff:2024-01-01:USD:CPI:08:30"
      = true
    ∧ (forex_daily_job false (fun _ => AIOutcome.err)
        (fun _ => false) [] [evCPI]).snd.length = 2 :=
  ⟨rfl, rfl⟩

/-- C1 (amended): for the social source the claim holds — when delivery
of a fresh post fails, the ledger and the cursor are exactly as if the
post had not been processed, and a later run presented with the same post
attempts delivery again (its send is the first call of that run).  For
the calendar source, every event of a run ends up recorded whatever the
delivery outcome, because `forex_daily_job` marks each fresh event while
composing the single batched message, before any send. -/
theorem C1_record_policy :
    (∀ (u : String) (sendOk : String → Bool) (st : XState) (t : Tweet)
        (rest : List Tweet),
      was_sent st.db ("x:" ++ t.id) = false →
      sendOk (x_message u t) = false →
      (x_process u sendOk st (t :: rest)).fst
          = (x_process u sendOk st rest).fst
      ∧ (x_process u sendOk st (t :: rest)).snd
          = BotAction.send (x_message u t)
              :: (x_process u sendOk st rest).snd)
    ∧ (∀ (u : String) (sendOk : String → Bool) (st : XState) (t : Tweet),
      was_sent st.db ("x:" ++ t.id) = false →
      (x_process u sendOk st [t]).snd.head?
          = some (BotAction.send (x_message u t)))
    ∧ (∀ (cfg : Bool) (ai : FFEvent → AIOutcome) (sendOk : String → Bool)
        (db : List (String × String)) (events : List FFEvent) (e : FFEvent),
      e ∈ events →
      was_sent (forex_daily_job cfg ai sendOk db events).fst e.id
        = true) := by
  refine ⟨?_, ?_, ?_⟩
  · intro u sendOk st t rest h1 h2
    constructor <;> simp [x_process, h1, h2]
  · intro u sendOk st t h1
    cases hs : sendOk (x_message u t) <;> simp [x_process, h1, hs]
  · intro cfg ai sendOk db events e he
    cases events with
    | nil => simp at he
    | cons a l =>
      have hmem := forex_loop_mem cfg ai (a :: l) db e he
      cases hsend : sendOk (String.intercalate "\n"
          (forex_header :: (forex_loop cfg ai db (a :: l)).snd)) <;>
        simpa [forex_daily_job, hsend] using hmem

/-- C1 (witness for the amended theorem): with every send failing, a
fresh post leaves the state exactly as an empty run does; and a fresh
calendar event is recorded by its run. -/
theorem C1_record_policy_witness :
    (x_process "acct" (fun _ => false)
        { db := [], last_seen_x_id := none } [t100]).fst
      = (x_process "acct" (fun _ => false)
        { db := [], last_seen_x_id := none } []).fst
    ∧ was_sent (forex_daily_job false (fun _ => AIOutcome.err)
        (fun _ => true) [] [evCPI]).fst evCPI.id = true :=
  ⟨(C1_record_policy.1 "acct" (fun _ => false)
      { db := [], last_seen_x_id := none } t100 [] rfl rfl).1,
   C1_record_policy.2.2 false (fun _ => AIOutcome.err) (fun _ => true)
      [] [evCPI] evCPI (by decide)⟩

/-- C5: every event `fetch_forex_today` outputs has an impact label whose
lowering does not contain the low-impact marker `low`; a row carrying the
marker is never turned into an event, whatever higher-impact keywords the
label also matches. -/
theorem C5_low_excluded (today : String) (rows : List (List String))
    (e : FFEvent) (he : e ∈ fetch_forex_today today rows) :
    strHas (strLower e.impact) "low" = false := by
  unfold fetch_forex_today at he
  rcases List.mem_filterMap.mp he with ⟨tds, -, h⟩
  unfold ffRowEvent at h
  split at h
  · exact absurd h (by simp)
  · split at h
    · split at h
      · exact absurd h (by simp)
      · rename_i hlow
        simp only [Bool.or_eq_true, not_or, Bool.not_eq_true] at hlow
        injection h with h
        rw [← h]
        exact hlow.1
    · exact absurd h (by simp)

/-- C5 (witness): the high-impact NFP row is turned into an event, and
its label indeed carries no low-impact marker. -/
theorem C5_low_excluded_witness :
    evNFP ∈ fetch_forex_today "2024-01-01" [nfpRow]
    ∧ strHas (strLower evNFP.impact) "low" = false :=
  ⟨by decide, C5_low_excluded "2024-01-01" [nfpRow] evNFP (by decide)⟩

/-- C8 (counterexample): with credentials set and an upstream request
that raises (timeout or connection error), `fetch_latest_from_x`
propagates the exception instead of returning an empty sequence — the
function body has no exception handler (only `x_poll_job`'s catch-all
around it absorbs the raise).  The claim that it never raises is
therefore false. -/
theorem C8_counterexample :
    fetch_latest_from_x "someuser" "tok" xEnvRaise = Except.error () :=
  rfl

/-- C8 (amended): when the username or bearer token is unset the adapter
returns an empty sequence without any upstream call; when an upstream
call completes with a non-success status (for either the user lookup or
the timeline fetch) it logs a warning and returns an empty sequence; but
when an upstream request itself raises, the exception propagates out of
`fetch_latest_from_x`. -/
theorem C8_fetch_behavior :
    (∀ (u b : String) (env : XEnv), b = "" ∨ u = "" →
      fetch_latest_from_x u b env = Except.ok [])
    ∧ (∀ (u b : String) (env : XEnv) (st : Nat) (body : Option String),
      env.userCall = HttpResult.resp st body → st ≠ 200 →
      fetch_latest_from_x u b env = Except.ok [])
    ∧ (∀ (u b : String) (env : XEnv) (uid : String) (st2 : Nat)
        (tws : List (String × String × String)),
      env.userCall = HttpResult.resp 200 (some uid) →
      env.tweetsCall = HttpResult.resp st2 tws → st2 ≠ 200 →
      fetch_latest_from_x u b env = Except.ok [])
    ∧ (∀ (u b : String) (env : XEnv), b ≠ "" → u ≠ "" →
      env.userCall = HttpResult.exn →
      fetch_latest_from_x u b env = Except.error ()) := by
  refine ⟨?_, ?_, ?_, ?_⟩
  · intro u b env h
    rw [fetch_latest_from_x, if_pos h]
  · intro u b env st body henv hst
    by_cases hc : b = "" ∨ u = ""
    · rw [fetch_latest_from_x, if_pos hc]
    · obtain ⟨uc, tc⟩ := env
      cases henv
      rw [fetch_latest_from_x, if_neg hc]
      simp [hst]
  · intro u b env uid st2 tws henv htw hst2
    by_cases hc : b = "" ∨ u = ""
    · rw [fetch_latest_from_x, if_pos hc]
    · obtain ⟨uc, tc⟩ := env
      cases henv
      cases htw
      rw [fetch_latest_from_x, if_neg hc]
      simp [hst2]
  · intro u b env hb hu henv
    obtain ⟨uc, tc⟩ := env
    cases henv
    rw [fetch_latest_from_x, if_neg (by simp [hb, hu])]

/-- C8 (witness for the amended theorem): an unset bearer token yields an
empty sequence even when the upstream would answer, and a 404 on the user
lookup yields an empty sequence. -/
theorem C8_fetch_behavior_witness :
    fetch_latest_from_x "acct" "" xEnvOk = Except.ok []
    ∧ fetch_latest_from_x "acct" "tok" xEnv404 = Except.ok [] :=
  ⟨C8_fetch_behavior.1 "acct" "" xEnvOk (Or.inl rfl),
   C8_fetch_behavior.2.1 "acct" "tok" xEnv404 404 none rfl (by decide)⟩

/-- C9: whenever the external generation call is not configured or it
fails, `analyze_event_with_ai` returns the deterministic templated
summary built from the event's fields, and that summary is non-empty for
every event (its fixed closing sentence alone is non-empty), so the
calendar pipeline always has a non-empty analysis text to attach. -/
theorem C9_fallback_nonempty (e : FFEvent) (configured : Bool)
    (ai : AIOutcome) (h : configured = false ∨ ai = AIOutcome.err) :
    analyze_event_with_ai configured ai e = fallback_comment e
    ∧ 0 < (fallback_comment e).length := by
  constructor
  · rcases h with h | h
    · rw [h]
      rfl
    · rw [h]
      cases configured <;> rfl
  · have hlen : ∀ a b : String, 0 < b.length → 0 < (a ++ b).length := by
      intro a b hb
      rw [String.length_append]
      omega
    exact hlen _ _ (by decide)

/-- C9 (witness): for the scenario CPI event with no generation
capability configured, the enrichment output is the template and it is
non-empty. -/
theorem C9_fallback_nonempty_witness :
    analyze_event_with_ai false AIOutcome.err evCPI = fallback_comment evCPI
    ∧ 0 < (fallback_comment evCPI).length :=
  C9_fallback_nonempty evCPI false AIOutcome.err (Or.inl rfl)
